import Mathlib

/-!
Verification development for a Python REST trading-API client
(`bitfinex_saf/client.py`).  The definitions below are a shallow embedding
of that module: bytes are `List Nat` (each element `< 256`), Python values
are the inductive `PyVal`, Python dicts are association lists with
update-in-place/append-at-end assignment semantics, and fallible Python
code returns `Except PyErr`.  The cryptographic primitives used by the
client (`hashlib.sha384`, `hmac`, `base64.standard_b64encode`) are
implemented in full so that the signing pipeline is executable.
-/

/-! ## Bytes, UTF-8, hex, base64 -/

/-- UTF-8 encoding of a single character (Python `unicode.encode('utf8')`). -/
def utf8Char (c : Char) : List Nat :=
  let n := c.toNat
  if n < 128 then [n]
  else if n < 2048 then [192 ||| (n >>> 6), 128 ||| (n &&& 63)]
  else if n < 65536 then
    [224 ||| (n >>> 12), 128 ||| ((n >>> 6) &&& 63), 128 ||| (n &&& 63)]
  else
    [240 ||| (n >>> 18), 128 ||| ((n >>> 12) &&& 63),
     128 ||| ((n >>> 6) &&& 63), 128 ||| (n &&& 63)]

/-- UTF-8 encoding of a string as a byte list (Python `.encode('utf8')`). -/
def utf8Encode (s : String) : List Nat :=
  (s.data.map utf8Char).flatten

/-- Lowercase hexadecimal digit for a value `< 16`. -/
def hexDigit (n : Nat) : Char :=
  (("0123456789abcdef".data).getD n '0')

/-- Lowercase hexadecimal rendering of a byte list (Python `.hexdigest()`). -/
def hexOfBytes (bs : List Nat) : String :=
  String.mk ((bs.map fun b => [hexDigit (b / 16), hexDigit (b % 16)]).flatten)

/-- Base64 alphabet value of a 6-bit group, as an ASCII byte. -/
def b64Char (n : Nat) : Nat :=
  (("ABCDEFGHIJKLMNOPQRSTUVWXYZabcdefghijklmnopqrstuvwxyz0123456789+/".data).getD n 'A').toNat

/-- Standard base64 encoding with padding, bytes to ASCII bytes
(Python `base64.standard_b64encode`). -/
def b64encode : List Nat → List Nat
  | [] => []
  | [b0] => [b64Char (b0 >>> 2), b64Char ((b0 &&& 3) <<< 4), 61, 61]
  | [b0, b1] =>
    [b64Char (b0 >>> 2), b64Char (((b0 &&& 3) <<< 4) ||| (b1 >>> 4)),
     b64Char ((b1 &&& 15) <<< 2), 61]
  | b0 :: b1 :: b2 :: rest =>
    b64Char (b0 >>> 2) :: b64Char (((b0 &&& 3) <<< 4) ||| (b1 >>> 4)) ::
    b64Char (((b1 &&& 15) <<< 2) ||| (b2 >>> 6)) :: b64Char (b2 &&& 63) ::
    b64encode rest

/-- ASCII decoding of a byte list (used to view base64 output as text). -/
def asciiOfBytes (bs : List Nat) : String :=
  String.mk (bs.map Char.ofNat)

/-! ## SHA-384 (FIPS 180-4), over 64-bit words carried as `Nat mod 2^64` -/

/-- Truncation to a 64-bit word. -/
def w64 (n : Nat) : Nat := n % 18446744073709551616

/-- Right rotation of a 64-bit word. -/
def rotr64 (r x : Nat) : Nat := w64 ((x >>> r) ||| (x <<< (64 - r)))

/-- Bitwise complement of a 64-bit word. -/
def not64 (x : Nat) : Nat := x ^^^ 18446744073709551615

/-- SHA-512 family functions. -/
def shaCh (x y z : Nat) : Nat := (x &&& y) ^^^ (not64 x &&& z)

def shaMaj (x y z : Nat) : Nat := (x &&& y) ^^^ (x &&& z) ^^^ (y &&& z)

def bigSigma0 (x : Nat) : Nat := rotr64 28 x ^^^ rotr64 34 x ^^^ rotr64 39 x

def bigSigma1 (x : Nat) : Nat := rotr64 14 x ^^^ rotr64 18 x ^^^ rotr64 41 x

def smallSigma0 (x : Nat) : Nat := rotr64 1 x ^^^ rotr64 8 x ^^^ (x >>> 7)

def smallSigma1 (x : Nat) : Nat := rotr64 19 x ^^^ rotr64 61 x ^^^ (x >>> 6)

/-- The 80 SHA-512 round constants. -/
def K512 : List Nat :=
  [4794697086780616226, 8158064640168781261, 13096744586834688815,
   16840607885511220156, 4131703408338449720, 6480981068601479193,
   10538285296894168987, 12329834152419229976, 15566598209576043074,
   1334009975649890238, 2608012711638119052, 6128411473006802146,
   8268148722764581231, 9286055187155687089, 11230858885718282805,
   13951009754708518548, 16472876342353939154, 17275323862435702243,
   1135362057144423861, 2597628984639134821, 3308224258029322869,
   5365058923640841347, 6679025012923562964, 8573033837759648693,
   10970295158949994411, 12119686244451234320, 12683024718118986047,
   13788192230050041572, 14330467153632333762, 15395433587784984357,
   489312712824947311, 1452737877330783856, 2861767655752347644,
   3322285676063803686, 5560940570517711597, 5996557281743188959,
   7280758554555802590, 8532644243296465576, 9350256976987008742,
   10552545826968843579, 11727347734174303076, 12113106623233404929,
   14000437183269869457, 14369950271660146224, 15101387698204529176,
   15463397548674623760, 17586052441742319658, 1182934255886127544,
   1847814050463011016, 2177327727835720531, 2830643537854262169,
   3796741975233480872, 4115178125766777443, 5681478168544905931,
   6601373596472566643, 7507060721942968483, 8399075790359081724,
   8693463985226723168, 9568029438360202098, 10144078919501101548,
   10430055236837252648, 11840083180663258601, 13761210420658862357,
   14299343276471374635, 14566680578165727644, 15097957966210449927,
   16922976911328602910, 17689382322260857208, 500013540394364858,
   748580250866718886, 1242879168328830382, 1977374033974150939,
   2944078676154940804, 3659926193048069267, 4368137639120453308,
   4836135668995329356, 5532061633213252278, 6448918945643986474,
   6902733635092675308, 7801388544844847127]

/-- SHA-384 initial hash value (eight 64-bit words). -/
def IV384 : List Nat :=
  [14680500436340154072, 7105036623409894663, 10473403895298186519,
   1526699215303891257, 7436329637833083697, 10282925794625328401,
   15784041429090275239, 5167115440072839076]

/-- Big-endian bytes of a 64-bit word, most significant first. -/
def w64Bytes (x : Nat) : List Nat :=
  [(x >>> 56) &&& 255, (x >>> 48) &&& 255, (x >>> 40) &&& 255,
   (x >>> 32) &&& 255, (x >>> 24) &&& 255, (x >>> 16) &&& 255,
   (x >>> 8) &&& 255, x &&& 255]

/-- Parse big-endian 64-bit words out of a byte list (8 bytes each). -/
def bytesToW64 : List Nat → List Nat
  | b0 :: b1 :: b2 :: b3 :: b4 :: b5 :: b6 :: b7 :: rest =>
    (((((((b0 * 256 + b1) * 256 + b2) * 256 + b3) * 256 + b4) * 256 + b5)
      * 256 + b6) * 256 + b7) :: bytesToW64 rest
  | _ => []

/-- SHA-512-family message padding: append `0x80`, zero bytes, and the
128-bit big-endian bit length, reaching a multiple of 128 bytes. -/
def shaPad (msg : List Nat) : List Nat :=
  let bitLen := msg.length * 8
  let zeros := (128 - ((msg.length + 17) % 128)) % 128
  msg ++ [128] ++ List.replicate zeros 0 ++
    List.replicate 8 0 ++ w64Bytes bitLen

/-- Split a byte list into 128-byte blocks (fuel-driven, structurally
recursive so the kernel can evaluate it). -/
def chunks128 : Nat → List Nat → List (List Nat)
  | 0, _ => []
  | _, [] => []
  | Nat.succ fuel, l => l.take 128 :: chunks128 fuel (l.drop 128)

/-- Extend the 16 block words to the 80-word message schedule.  The
accumulator holds the words computed so far, most recent first. -/
def shaExtend : Nat → List Nat → List Nat
  | 0, acc => acc.reverse
  | Nat.succ fuel, acc =>
    let g := fun i => acc.getD i 0
    shaExtend fuel
      (w64 (smallSigma1 (g 1) + g 6 + smallSigma0 (g 14) + g 15) :: acc)

/-- One compression round: state is the eight working variables. -/
def shaRound (st : List Nat) (kw : Nat × Nat) : List Nat :=
  let g := fun i => st.getD i 0
  let t1 := w64 (g 7 + bigSigma1 (g 4) + shaCh (g 4) (g 5) (g 6) + kw.1 + kw.2)
  let t2 := w64 (bigSigma0 (g 0) + shaMaj (g 0) (g 1) (g 2))
  [w64 (t1 + t2), g 0, g 1, g 2, w64 (g 3 + t1), g 4, g 5, g 6]

/-- Compress one 128-byte block into the running hash value. -/
def shaCompress (h : List Nat) (block : List Nat) : List Nat :=
  let w16 := bytesToW64 block
  let w := shaExtend 64 w16.reverse
  let fin := (K512.zip w).foldl shaRound h
  (h.zip fin).map fun p => w64 (p.1 + p.2)

/-- SHA-384 digest of a byte list: SHA-512 compression from the SHA-384
initial value, output truncated to the first six words (48 bytes). -/
def sha384 (msg : List Nat) : List Nat :=
  let padded := shaPad msg
  let h := (chunks128 (padded.length) padded).foldl shaCompress IV384
  ((h.take 6).map w64Bytes).flatten

/-- HMAC-SHA384 (RFC 2104): block size 128 bytes. -/
def hmacSha384 (key msg : List Nat) : List Nat :=
  let k0 := if 128 < key.length then sha384 key else key
  let k := k0 ++ List.replicate (128 - k0.length) 0
  let inner := sha384 ((k.map fun b => b ^^^ 54) ++ msg)
  sha384 ((k.map fun b => b ^^^ 92) ++ inner)

/-! ## Python values, dicts, truthiness -/

/-- Python values as they occur in this client: strings, ints, floats
(carried as rationals), booleans, lists and string-keyed dicts. -/
inductive PyVal where
  | str (s : String)
  | int (n : Int)
  | float (q : Rat)
  | bool (b : Bool)
  | list (xs : List PyVal)
  | dict (d : List (String × PyVal))
deriving Repr

/-- A Python dict with string keys, in insertion order. -/
abbrev PyDict := List (String × PyVal)

/-- Dict lookup, `d[k]` when the key is present. -/
def dictGet : PyDict → String → Option PyVal
  | [], _ => none
  | (k, v) :: rest, key => if k = key then some v else dictGet rest key

/-- Dict assignment `d[k] = v`: overwrite in place if the key exists,
append at the end otherwise (CPython dict semantics). -/
def dictSet : PyDict → String → PyVal → PyDict
  | [], key, val => [(key, val)]
  | (k, v) :: rest, key, val =>
    if k = key then (k, val) :: rest else (k, v) :: dictSet rest key val

/-- Python `d.update(u)`: assign every pair of `u` into `d`, in order. -/
def dictUpdate (d : PyDict) (u : PyDict) : PyDict :=
  u.foldl (fun acc kv => dictSet acc kv.1 kv.2) d

/-- Python truthiness `bool(v)` for the embedded value types. -/
def truthy : PyVal → Bool
  | .str s => !s.isEmpty
  | .int n => if n = 0 then false else true
  | .float q => if q = 0 then false else true
  | .bool b => b
  | .list xs => !xs.isEmpty
  | .dict d => !d.isEmpty

/-! ## Python errors -/

/-- Carried by every `RequestError`: the path of the response's final URL
and the HTTP status code. -/
structure ReqErrData where
  path : String
  status : Nat
deriving Repr, DecidableEq

/-- The exceptions this module can raise: built-in Python errors plus the
module's own taxonomy (`NotConfigured`, `RequestError`, `BadAuth`,
`RateLimitReached`). -/
inductive PyErr where
  | keyError (k : String)
  | valueError (m : String)
  | typeError
  | attributeError
  | notConfigured (parameterName : String)
  | requestError (e : ReqErrData)
  | badAuth (e : ReqErrData) (message : PyVal)
  | rateLimitReached (e : ReqErrData)
deriving Repr

/-- Dict subscript `d[k]` as fallible Python: `KeyError` when missing. -/
def getItem (d : PyDict) (k : String) : Except PyErr PyVal :=
  match dictGet d k with
  | some v => .ok v
  | none => .error (.keyError k)

/-- Subscripting an arbitrary value with a string key: dicts look the key
up (`KeyError` if absent); any other value raises `TypeError`. -/
def pySubscript (v : PyVal) (k : String) : Except PyErr PyVal :=
  match v with
  | .dict d => getItem d k
  | _ => .error .typeError

/-! ## JSON serialization (Python 2 `json.dumps` defaults) -/

/-- Four lowercase hex digits of a value `< 65536`. -/
def hex4 (n : Nat) : String :=
  String.mk [hexDigit (n / 4096 % 16), hexDigit (n / 256 % 16),
             hexDigit (n / 16 % 16), hexDigit (n % 16)]

/-- JSON escaping of one character with `ensure_ascii=True`: quote and
backslash escaped, control characters short-escaped or `\u00xx`, and every
character outside printable ASCII emitted as `\uxxxx` (surrogate pairs
above the BMP). -/
def jsonEscapeChar (c : Char) : String :=
  if c = '"' then "\\\""
  else if c = '\\' then "\\\\"
  else if c = '\n' then "\\n"
  else if c = '\r' then "\\r"
  else if c = '\t' then "\\t"
  else if c.toNat = 8 then "\\b"
  else if c.toNat = 12 then "\\f"
  else if c.toNat < 32 || 126 < c.toNat then
    if c.toNat < 65536 then "\\u" ++ hex4 c.toNat
    else
      let v := c.toNat - 65536
      "\\u" ++ hex4 (55296 + v / 1024) ++ "\\u" ++ hex4 (56320 + v % 1024)
  else String.singleton c

/-- A JSON string literal for `s`. -/
def jsonString (s : String) : String :=
  "\"" ++ String.join (s.data.map jsonEscapeChar) ++ "\""

/-- Decimal digits of the fractional part of a rational in `[0,1)`,
longest first, with fuel; used to render the floats that occur in this
client (finite decimals such as `5.0`). -/
def fracDigits : Nat → Rat → String
  | 0, _ => ""
  | Nat.succ fuel, q =>
    if q = 0 then ""
    else
      let q10 := q * 10
      let d := q10.floor
      (toString d) ++ fracDigits fuel (q10 - (d : Rat))

/-- Python `repr` of the floats occurring here: integer part, a dot, and
the fractional digits (at least one, so `5.0` renders as `"5.0"`). -/
def pyFloatRepr (q : Rat) : String :=
  let sign := if q < 0 then "-" else ""
  let a := |q|
  let ip := a.floor
  let fp := a - (ip : Rat)
  sign ++ toString ip ++ "." ++ (if fp = 0 then "0" else fracDigits 17 fp)

mutual
/-- Python 2 `json.dumps` with default separators `", "` and `": "` and
`ensure_ascii=True`, over the embedded value type.  `jsonDumpsSeq` and
`jsonDumpsItems` render comma-separated list elements and dict entries. -/
def jsonDumps : PyVal → String
  | .str s => jsonString s
  | .int n => toString n
  | .float q => pyFloatRepr q
  | .bool b => if b then "true" else "false"
  | .list xs => "[" ++ jsonDumpsSeq xs ++ "]"
  | .dict d => "\x7b" ++ jsonDumpsItems d ++ "\x7d"

def jsonDumpsSeq : List PyVal → String
  | [] => ""
  | [x] => jsonDumps x
  | x :: y :: rest => jsonDumps x ++ ", " ++ jsonDumpsSeq (y :: rest)

def jsonDumpsItems : List (String × PyVal) → String
  | [] => ""
  | [(k, v)] => jsonString k ++ ": " ++ jsonDumps v
  | (k, v) :: p :: rest =>
    jsonString k ++ ": " ++ jsonDumps v ++ ", " ++ jsonDumpsItems (p :: rest)
end

mutual
/-- Python `str(v)` for the embedded values (only strings reach it in the
claims; containers render approximately as CPython would). -/
def pyStr : PyVal → String
  | .str s => s
  | .int n => toString n
  | .float q => pyFloatRepr q
  | .bool b => if b then "True" else "False"
  | .list xs => "[" ++ pyStrSeq xs ++ "]"
  | .dict d => "\x7b" ++ pyStrItems d ++ "\x7d"

def pyStrSeq : List PyVal → String
  | [] => ""
  | [x] => pyStr x
  | x :: y :: rest => pyStr x ++ ", " ++ pyStrSeq (y :: rest)

def pyStrItems : List (String × PyVal) → String
  | [] => ""
  | [(k, v)] => "'" ++ k ++ "': " ++ pyStr v
  | (k, v) :: p :: rest =>
    "'" ++ k ++ "': " ++ pyStr v ++ ", " ++ pyStrItems (p :: rest)
end

/-! ## HTTP responses and the error classifier -/

/-- An HTTP response as the client observes it: status code, final URL,
and the result of `response.json()` — a parsed value, or the description
of the `ValueError` raised on a body that is not valid JSON. -/
structure Response where
  status_code : Nat
  url : String
  jsonResult : Except String PyVal
deriving Repr

/-- Characters before the first occurrence of `c`. -/
def takeUntilChar (c : Char) : List Char → List Char
  | [] => []
  | x :: xs => if x = c then [] else x :: takeUntilChar c xs

/-- The suffix starting at the first occurrence of `c` (empty if none). -/
def dropUntilChar (c : Char) : List Char → List Char
  | [] => []
  | x :: xs => if x = c then x :: xs else dropUntilChar c xs

/-- Split at the first occurrence of the pattern: the part before it and
the part after it, or `none` when the pattern does not occur. -/
def breakOnSub (pat : List Char) : List Char → Option (List Char × List Char)
  | [] => if pat.isPrefixOf ([] : List Char) then some ([], []) else none
  | x :: xs =>
    if pat.isPrefixOf (x :: xs) then some ([], (x :: xs).drop pat.length)
    else
      match breakOnSub pat xs with
      | some pp => some (x :: pp.1, pp.2)
      | none => none

/-- Path component of `urlparse(url)`: the fragment and then the query
are stripped; when a `scheme://netloc` part is present the path is the
netloc's suffix starting at its first `/` (empty if none), otherwise the
whole remainder. -/
def urlparsePath (url : String) : String :=
  let s := takeUntilChar '?' (takeUntilChar '#' url.data)
  match breakOnSub ("://".data) s with
  | none => String.mk s
  | some pp => String.mk (dropUntilChar '/' pp.2)

/-- `RequestError.__init__`: record the path of the response's final URL
and its status code. -/
def requestErrData (r : Response) : ReqErrData :=
  { path := urlparsePath r.url, status := r.status_code }

/-- The body of `BadAuth.__init__` computing `self.message`: start from
the placeholder; if `response.json()` raised a `ValueError`, append its
description to the placeholder; otherwise subscript the parsed value with
`"message"` — a `KeyError` (field absent) or `TypeError` (body not an
object) is NOT caught and escapes — and keep the field when truthy, else
fall back to the placeholder. -/
def badAuthMessage (r : Response) : Except PyErr PyVal :=
  let placeholder := "<could not parse body>"
  match r.jsonResult with
  | .error e => .ok (.str (placeholder ++ e))
  | .ok v =>
    match pySubscript v "message" with
    | .error e => .error e
    | .ok m => .ok (if truthy m then m else .str placeholder)

def STATUS_OK : Nat := 200
def STATUS_TOO_MANY : Nat := 429
def STATUS_BAD : Nat := 400
def STATUS_UNAUTH : Nat := 401

/-- `BitfinexClient._handle_response_errors`: 200 passes; 401 raises
`BadAuth` (whose construction can itself raise, see `badAuthMessage`);
429 raises `RateLimitReached`; every other status raises `RequestError`. -/
def handle_response_errors (r : Response) : Except PyErr Unit :=
  if r.status_code = STATUS_OK then .ok ()
  else
    if r.status_code = STATUS_UNAUTH then
      match badAuthMessage r with
      | .error e => .error e
      | .ok m => Except.error (.badAuth (requestErrData r) m)
    else
      if r.status_code = STATUS_TOO_MANY then
        Except.error (.rateLimitReached (requestErrData r))
      else Except.error (.requestError (requestErrData r))

/-! ## Configuration and client construction -/

def PROTOCOL : String := "https"
def HOST : String := "api.bitfinex.com"

/-- The module-level `DEFAULT_CONFIG` dict, in source order. -/
def DEFAULT_CONFIG : PyDict :=
  [("timeout", .float 5), ("host", .str HOST), ("protocol", .str PROTOCOL),
   ("auth", .dict []), ("verify", .bool true)]

/-- A `requests.Session` as this module configures it: the TLS
verification flag and the default headers this module installs (a fresh
session's library-supplied headers are not modelled). -/
structure Session where
  verify : PyVal
  headers : PyDict
deriving Repr

/-- `BitfinexClient` state after `__init__`: resolved options, the
`_is_auth` flag, the UTF-8 secret bytes (`_secret_key`), the base URL,
and the memoized `_session` (initially `none`). -/
structure Client where
  options : PyDict
  is_auth : Bool
  secret_key : Option (List Nat)
  url : String
  session : Option Session
deriving Repr

/-- `BitfinexClient.__init__`: deep-copy the defaults, `update` them with
the caller's options when truthy, then compute `_is_auth` as
`bool(options['auth']) and (bool(options['key']) and
bool(options['secret']))` — note the second and third subscripts read the
TOP-LEVEL keys `'key'`/`'secret'` (exactly as the source does), raising
`KeyError` when absent — then `_secret_key` from
`options['auth']['secret'].encode('utf8')` when authenticated, and the
base URL from the protocol and host options. -/
def mkClient (options : Option PyDict) : Except PyErr Client :=
  let opts :=
    match options with
    | some o => if truthy (.dict o) then dictUpdate DEFAULT_CONFIG o else DEFAULT_CONFIG
    | none => DEFAULT_CONFIG
  match getItem opts "auth" with
  | .error e => .error e
  | .ok auth =>
    let isAuthE : Except PyErr Bool :=
      if truthy auth then
        match getItem opts "key" with
        | .error e => .error e
        | .ok k =>
          if truthy k then
            match getItem opts "secret" with
            | .error e => .error e
            | .ok s => .ok (truthy s)
          else .ok false
      else .ok false
    match isAuthE with
    | .error e => .error e
    | .ok isAuth =>
      let secretE : Except PyErr (Option (List Nat)) :=
        if isAuth then
          match getItem opts "auth" with
          | .error e => .error e
          | .ok a =>
            match pySubscript a "secret" with
            | .error e => .error e
            | .ok (.str sv) => .ok (some (utf8Encode sv))
            | .ok _ => .error PyErr.attributeError
        else .ok none
      match secretE with
      | .error e => .error e
      | .ok secretKey =>
        match getItem opts "protocol" with
        | .error e => .error e
        | .ok proto =>
          match getItem opts "host" with
          | .error e => .error e
          | .ok host =>
            .ok { options := opts, is_auth := isAuth, secret_key := secretKey,
                  url := pyStr proto ++ "://" ++ pyStr host, session := none }

/-- The `key` property: `options['auth']['key']` when authenticated,
`None` otherwise. -/
def clientKey (c : Client) : Except PyErr (Option PyVal) :=
  if c.is_auth then
    match getItem c.options "auth" with
    | .error e => .error e
    | .ok a =>
      match pySubscript a "key" with
      | .error e => .error e
      | .ok k => .ok (some k)
  else .ok none

/-! ## Nonce, session, signing -/

/-- `BitfinexClient._nonce` is `str(random.randint(0, 100000000))`; the
pseudo-random draw is passed in explicitly.  Python's `random.randint(a, b)`
is modelled by its documented contract: it returns an integer `n` with
`a ≤ n ≤ b`, BOTH bounds inclusive. -/
def nonce (draw : Nat) : String := toString draw

/-- The outcome set of Python `random.randint a b` per its documentation
(inclusive on both ends). -/
def randintOutcomes (a b : Nat) : Set Nat := {n | a ≤ n ∧ n ≤ b}

/-- `BitfinexClient._get_session`: memoized.  On first call, create the
session, set its TLS-verification flag from `options['verify']`, and when
authenticated install the `X-BFX-APIKEY` default header carrying the
`key` property.  Later calls return the cached session unchanged. -/
def get_session (c : Client) : Except PyErr (Session × Client) :=
  match c.session with
  | some s => .ok (s, c)
  | none =>
    match getItem c.options "verify" with
    | .error e => .error e
    | .ok v =>
      let headersE : Except PyErr PyDict :=
        if c.is_auth then
          match clientKey c with
          | .error e => .error e
          | .ok (some kv) => .ok (dictSet [] "X-BFX-APIKEY" kv)
          | .ok none => .ok []
        else .ok []
      match headersE with
      | .error e => .error e
      | .ok headers =>
        let s : Session := { verify := v, headers := headers }
        .ok (s, { c with session := some s })

/-- The value returned by `_sign_payload`: the two authentication
headers. -/
structure SignedHeaders where
  xbfxSignature : String
  xbfxPayload : List Nat
deriving Repr, DecidableEq

/-- `BitfinexClient._sign_payload`: raise `NotConfigured("auth")` when
unauthenticated; otherwise JSON-serialize the payload, UTF-8 encode it,
base64-encode the bytes, and HMAC-SHA384 them under the raw secret-key
bytes, rendering the digest as lowercase hex.  (`hmac.new(None, ...)`
would raise a `TypeError`; that branch is unreachable for constructed
clients.) -/
def sign_payload (c : Client) (payload : PyDict) : Except PyErr SignedHeaders :=
  if c.is_auth then
    match c.secret_key with
    | some sk =>
      let data := b64encode (utf8Encode (jsonDumps (.dict payload)))
      .ok { xbfxSignature := hexOfBytes (hmacSha384 sk data), xbfxPayload := data }
    | none => Except.error PyErr.typeError
  else Except.error (PyErr.notConfigured "auth")

/-! ## POST path, with caller heap and effect trace -/

/-- A heap of payload dicts.  Python dict arguments are passed by
reference; a store cell holds the dict a reference designates, so that
caller-visible (non-)mutation of the argument can be stated. -/
abbrev Store := List PyDict

/-- Externally visible interactions of a request, in order: obtaining the
session (`_get_session`) and performing the network call. -/
inductive Effect where
  | sessionObtained
  | netPost (url : String)
deriving Repr, DecidableEq

/-- Everything `_make_post_request` produces: the returned response or
raised error, the client (whose `_session` may now be cached), the heap,
the augmented copy handed to the signer, and the effect trace. -/
structure PostOutcome where
  result : Except PyErr Response
  client : Client
  store : Store
  finalPayload : PyDict
  effects : List Effect
deriving Repr

/-- `BitfinexClient._make_post_request`: `copy.deepcopy` the payload
referenced by `pref` into a fresh cell, assign its `request` and `nonce`
keys (mutating only the copy), sign the copy, then obtain the session and
POST `url + path` with the signed headers, classifying the response.
`draw` is the random draw behind `_nonce`, and `net` is the transport:
the response `session.post` returns. -/
def make_post_request (c : Client) (draw : Nat)
    (net : Session → String → SignedHeaders → Response)
    (store : Store) (pref : Nat) (path : String) : PostOutcome :=
  let orig := store.getD pref []
  let q := store.length
  let store1 := store ++ [orig]
  let fp1 := dictSet orig "request" (.str path)
  let store2 := store1.set q fp1
  let fp2 := dictSet fp1 "nonce" (.str (nonce draw))
  let store3 := store2.set q fp2
  match sign_payload c fp2 with
  | .error e =>
    { result := .error e, client := c, store := store3, finalPayload := fp2,
      effects := [] }
  | .ok headers =>
    match get_session c with
    | .error e =>
      { result := .error e, client := c, store := store3, finalPayload := fp2,
        effects := [.sessionObtained] }
    | .ok (sess, c1) =>
      let resp := net sess (c.url ++ path) headers
      let effs := [Effect.sessionObtained, Effect.netPost (c.url ++ path)]
      match handle_response_errors resp with
      | .error e =>
        { result := .error e, client := c1, store := store3, finalPayload := fp2,
          effects := effs }
      | .ok _ =>
        { result := .ok resp, client := c1, store := store3, finalPayload := fp2,
          effects := effs }

/-- Allocate a fresh dict literal on the heap, returning its reference. -/
def alloc (store : Store) (d : PyDict) : Store × Nat :=
  (store ++ [d], store.length)

/-- `req_cancel_order`: POST `/v1/order/cancel` with payload
`{"id": order_id}`. -/
def req_cancel_order (c : Client) (draw : Nat)
    (net : Session → String → SignedHeaders → Response)
    (store : Store) (orderId : Int) : PostOutcome :=
  let sr := alloc store [("id", .int orderId)]
  make_post_request c draw net sr.1 sr.2 "/v1/order/cancel"

/-- `req_active_orders`: POST `/v1/orders` with payload `{}`. -/
def req_active_orders (c : Client) (draw : Nat)
    (net : Session → String → SignedHeaders → Response)
    (store : Store) : PostOutcome :=
  let sr := alloc store []
  make_post_request c draw net sr.1 sr.2 "/v1/orders"

/-- `req_order_status`: POST `/v1/order/status` with payload
`{"id": order_id}`. -/
def req_order_status (c : Client) (draw : Nat)
    (net : Session → String → SignedHeaders → Response)
    (store : Store) (orderId : Int) : PostOutcome :=
  let sr := alloc store [("id", .int orderId)]
  make_post_request c draw net sr.1 sr.2 "/v1/order/status"

/-! ## Orders -/

/-- `Order` state after `__init__`: the five constructor arguments, the
constant `exchange`, and the keyword extras (`**kwargs`) kept aside. -/
structure Order where
  exchange : PyVal
  symbol : PyVal
  amount : PyVal
  price : PyVal
  side : PyVal
  type : PyVal
  additional_params : List (String × PyVal)
deriving Repr

/-- `Order.__init__`: `exchange` is always the constant `'bitfinex'`. -/
def mkOrder (symbol amount price side type : PyVal)
    (kwargs : List (String × PyVal)) : Order :=
  { exchange := .str "bitfinex", symbol := symbol, amount := amount,
    price := price, side := side, type := type,
    additional_params := kwargs }

/-- `Order.to_dict`: build the dict of the six named fields in source
order, then run `for k, v in self._additional_params` — which iterates
the dict's KEYS (not its items) and tuple-unpacks each key string: a
two-character key unpacks into its two characters (which become the new
key and value, the stored extra value being ignored), and a key of any
other length raises `ValueError`. -/
def to_dict (o : Order) : Except PyErr PyDict :=
  let res : PyDict :=
    [("symbol", o.symbol), ("amount", o.amount), ("price", o.price),
     ("exchange", o.exchange), ("side", o.side), ("type", o.type)]
  o.additional_params.foldlM
    (fun acc kv =>
      match kv.1.data with
      | [c1, c2] =>
        pure (dictSet acc (String.singleton c1) (.str (String.singleton c2)))
      | _ => Except.error (PyErr.valueError "unpack"))
    res

/-- `req_new_order`: serialize the order (which can itself raise), then
POST `/v1/order/new` with the resulting payload. -/
def req_new_order (c : Client) (draw : Nat)
    (net : Session → String → SignedHeaders → Response)
    (store : Store) (o : Order) : Except PyErr PostOutcome :=
  match to_dict o with
  | .error e => .error e
  | .ok payload =>
    let sr := alloc store payload
    .ok (make_post_request c draw net sr.1 sr.2 "/v1/order/new")

/-! ## Sample values used by concrete instantiations -/

/-- The client `__init__` yields for `BitfinexClient()` (all defaults). -/
def defaultClient : Client :=
  { options := DEFAULT_CONFIG, is_auth := false, secret_key := none,
    url := "https://api.bitfinex.com", session := none }

/-- The client `__init__` yields for options `{"host": "x"}`. -/
def hostXClient : Client :=
  { options := [("timeout", .float 5), ("host", .str "x"),
                ("protocol", .str PROTOCOL), ("auth", .dict []),
                ("verify", .bool true)],
    is_auth := false, secret_key := none, url := "https://x", session := none }

/-- The client `__init__` yields for options containing an auth sub-dict
AND the top-level `key`/`secret` entries that line 85 of the source
actually reads (the only shape under which `_is_auth` comes out true). -/
def sampleAuthClient : Client :=
  { options := [("timeout", .float 5), ("host", .str HOST),
                ("protocol", .str PROTOCOL),
                ("auth", .dict [("key", .str "k"), ("secret", .str "s")]),
                ("verify", .bool true),
                ("key", .str "k"), ("secret", .str "s")],
    is_auth := true, secret_key := some (utf8Encode "s"),
    url := "https://api.bitfinex.com", session := none }

/-- A fixed transport stub: every POST yields a 200 response. -/
def netStub : Session → String → SignedHeaders → Response :=
  fun _ _ _ =>
    { status_code := 200, url := "https://api.bitfinex.com/v1/orders",
      jsonResult := .ok (.dict []) }

/-- The session the first `_get_session` call creates on the default
client. -/
def sessionD : Session := { verify := .bool true, headers := [] }

/-- The default client after its session is cached. -/
def clientD : Client := { defaultClient with session := some sessionD }

/-- A one-cell heap holding a payload that already has a `nonce` key. -/
def storeW : Store := [[("id", PyVal.int 5), ("nonce", PyVal.str "stale")]]

/-! ## Dict lemmas -/

theorem dictGet_dictSet_self (d : PyDict) (k : String) (v : PyVal) :
    dictGet (dictSet d k v) k = some v := by
  induction d with
  | nil => simp [dictSet, dictGet]
  | cons hd tl ih =>
    obtain ⟨k0, v0⟩ := hd
    by_cases h : k0 = k
    · simp [dictSet, dictGet, h]
    · simp [dictSet, dictGet, h, ih]

theorem dictGet_dictSet_ne (d : PyDict) (k k' : String) (v : PyVal)
    (h : k ≠ k') : dictGet (dictSet d k v) k' = dictGet d k' := by
  induction d with
  | nil => simp [dictSet, dictGet, h]
  | cons hd tl ih =>
    obtain ⟨k0, v0⟩ := hd
    by_cases h0 : k0 = k
    · subst h0
      simp [dictSet, dictGet, h]
    · by_cases h1 : k0 = k'
      · have hks : ¬(k' = k) := fun e => h e.symm
        simp [dictSet, dictGet, h0, h1, hks]
      · simp [dictSet, dictGet, h0, h1, ih]

/-- When the client is authenticated, a successful `key` property read
always yields an actual value (`pure (some k)` is the only success). -/
theorem clientKey_auth_isSome (c : Client) (hauth : c.is_auth = true)
    (r : Option PyVal) (h : clientKey c = .ok r) : ∃ k, r = some k := by
  unfold clientKey at h
  rw [hauth] at h
  simp only [if_true] at h
  split at h
  · exact absurd h (by simp)
  · split at h
    · exact absurd h (by simp)
    · exact ⟨_, (Except.ok.injEq _ _ ▸ h).symm⟩

/-! ## Claims -/

/-- C1: On an authenticated client whose stored secret key is the raw
UTF-8 bytes of the secret `sv` (exactly what `__init__` stores,
`options['auth']['secret'].encode('utf8')`), signing the augmented
payload — P plus the computed `request` and `nonce` fields — returns the
two headers: the signature is the lowercase-hex HMAC-SHA384 digest, keyed
by those secret bytes, of the standard padded base64 encoding of the
UTF-8 JSON serialization of the augmented payload, and the
encoded-payload header is that same base64 blob.  Determinism for a fixed
P, path and nonce is immediate: the embedded pipeline is a pure function
of them. -/
theorem sign_payload_pipeline (c : Client) (p : PyDict) (path : String)
    (draw : Nat) (sv : String) (hauth : c.is_auth = true)
    (hsec : c.secret_key = some (utf8Encode sv)) :
    sign_payload c
        (dictSet (dictSet p "request" (.str path)) "nonce" (.str (nonce draw))) =
      Except.ok
        { xbfxSignature :=
            hexOfBytes (hmacSha384 (utf8Encode sv)
              (b64encode (utf8Encode (jsonDumps
                (.dict (dictSet (dictSet p "request" (.str path)) "nonce"
                  (.str (nonce draw)))))))),
          xbfxPayload :=
            b64encode (utf8Encode (jsonDumps
              (.dict (dictSet (dictSet p "request" (.str path)) "nonce"
                (.str (nonce draw)))))) } := by
  simp [sign_payload, hauth, hsec]

/-- C1 witness: the pipeline equation at a concrete authenticated client
and payload. -/
theorem sign_payload_pipeline_witness :
    sign_payload sampleAuthClient
        (dictSet (dictSet [("id", PyVal.int 5)] "request" (.str "/v1/order/status"))
          "nonce" (.str (nonce 42))) =
      Except.ok
        { xbfxSignature :=
            hexOfBytes (hmacSha384 (utf8Encode "s")
              (b64encode (utf8Encode (jsonDumps
                (.dict (dictSet (dictSet [("id", PyVal.int 5)] "request"
                  (.str "/v1/order/status")) "nonce" (.str (nonce 42)))))))),
          xbfxPayload :=
            b64encode (utf8Encode (jsonDumps
              (.dict (dictSet (dictSet [("id", PyVal.int 5)] "request"
                (.str "/v1/order/status")) "nonce" (.str (nonce 42)))))) } :=
  sign_payload_pipeline sampleAuthClient [("id", PyVal.int 5)]
    "/v1/order/status" 42 "s" rfl rfl

/-- C2: On an unauthenticated client, every POST request (all six private
endpoints delegate to `_make_post_request`) fails with
`NotConfigured("auth")`, with an empty effect trace — no session is
obtained and no network call is made — and the client is unchanged:
`_sign_payload` raises before `_get_session` is reached. -/
theorem post_unauth_not_configured (c : Client) (draw : Nat)
    (net : Session → String → SignedHeaders → Response)
    (store : Store) (pref : Nat) (path : String)
    (hunauth : c.is_auth = false) :
    (make_post_request c draw net store pref path).result =
      Except.error (PyErr.notConfigured "auth") ∧
    (make_post_request c draw net store pref path).effects = [] ∧
    (make_post_request c draw net store pref path).client = c := by
  simp [make_post_request, sign_payload, hunauth]

/-- C2 witness: the failure at a concrete unauthenticated client. -/
theorem post_unauth_not_configured_witness :
    (make_post_request defaultClient 0 netStub [[("id", PyVal.int 1)]] 0
        "/v1/orders").result = Except.error (PyErr.notConfigured "auth") ∧
    (make_post_request defaultClient 0 netStub [[("id", PyVal.int 1)]] 0
        "/v1/orders").effects = [] ∧
    (make_post_request defaultClient 0 netStub [[("id", PyVal.int 1)]] 0
        "/v1/orders").client = defaultClient :=
  post_unauth_not_configured defaultClient 0 netStub [[("id", PyVal.int 1)]] 0
    "/v1/orders" rfl

/-- C3: The claim says construction always succeeds with
`isAuthenticated` true iff the auth key and secret are present and
non-empty.  The code instead raises `KeyError('key')` for every truthy
`auth` option: line 85 reads the TOP-LEVEL `options['key']` (and
`options['secret']`) instead of `options['auth']['key']`, although the
neighbouring lines 86 and 92 do read inside the auth sub-dict.  So an
options map carrying both credentials inside `auth` — which the claim
says yields an authenticated client — crashes `__init__`, as does an
auth sub-object lacking either field (which the claim says yields an
unauthenticated client). -/
theorem init_auth_raises_keyerror :
    mkClient (some [("auth", .dict [("key", .str "k"), ("secret", .str "s")])]) =
      Except.error (PyErr.keyError "key") ∧
    mkClient (some [("auth", .dict [("key", .str "k")])]) =
      Except.error (PyErr.keyError "key") ∧
    mkClient (some [("auth", .dict [("secret", .str "s")])]) =
      Except.error (PyErr.keyError "key") :=
  ⟨rfl, rfl, rfl⟩

/-- C4: The classifier at concrete responses.  200 passes; 429 raises
`RateLimitReached` and 500 the generic `RequestError`, each carrying the
final-URL path and the status; a 401 whose body holds a `message` field
raises `BadAuth`.  The last conjunct is the divergence from the claim: a
401 whose body is valid JSON WITHOUT a `message` field makes
`BadAuth.__init__` raise `KeyError('message')` (the `try` only catches
`ValueError`), so no `BadAuth` — and no error carrying path and status —
is raised for that response. -/
theorem classifier_eval :
    handle_response_errors
        { status_code := 200, url := "https://api.bitfinex.com/v1/ticker/btcusd",
          jsonResult := .ok (.dict [("mid", .str "244.755")]) } = .ok () ∧
    handle_response_errors
        { status_code := 429, url := "https://api.bitfinex.com/v1/orders",
          jsonResult := .ok (.dict []) } =
      Except.error (.rateLimitReached { path := "/v1/orders", status := 429 }) ∧
    handle_response_errors
        { status_code := 500, url := "https://api.bitfinex.com/v1/orders",
          jsonResult := .ok (.dict []) } =
      Except.error (.requestError { path := "/v1/orders", status := 500 }) ∧
    handle_response_errors
        { status_code := 404, url := "https://api.bitfinex.com/v1/book/btcusd?limit_bids=1",
          jsonResult := .error "No JSON object could be decoded" } =
      Except.error (.requestError { path := "/v1/book/btcusd", status := 404 }) ∧
    handle_response_errors
        { status_code := 401, url := "https://api.bitfinex.com/v1/orders",
          jsonResult := .ok (.dict [("message", .str "Could not verify signature")]) } =
      Except.error (.badAuth { path := "/v1/orders", status := 401 }
        (.str "Could not verify signature")) ∧
    handle_response_errors
        { status_code := 401, url := "https://api.bitfinex.com/v1/orders",
          jsonResult := .ok (.dict []) } =
      Except.error (.keyError "message") :=
  ⟨rfl, rfl, rfl, rfl, rfl, rfl⟩

/-- C5: The `BadAuth` message computation at concrete responses.  A body
that fails to parse yields the placeholder with the decode-error
description appended; a present truthy `message` field is kept; a present
falsy `message` falls back to the placeholder.  The last two conjuncts
are the divergence from the claim: when the field is ABSENT the code
raises `KeyError('message')` (and a non-object body raises `TypeError`)
instead of using the placeholder, because it subscripts
`json["message"]` under a `try` that only catches `ValueError`. -/
theorem badauth_message_eval :
    badAuthMessage
        { status_code := 401, url := "https://api.bitfinex.com/v1/order/new",
          jsonResult := .error "No JSON object could be decoded" } =
      .ok (.str "<could not parse body>No JSON object could be decoded") ∧
    badAuthMessage
        { status_code := 401, url := "https://api.bitfinex.com/v1/order/new",
          jsonResult := .ok (.dict [("message", .str "Invalid API key")]) } =
      .ok (.str "Invalid API key") ∧
    badAuthMessage
        { status_code := 401, url := "https://api.bitfinex.com/v1/order/new",
          jsonResult := .ok (.dict [("message", .str "")]) } =
      .ok (.str "<could not parse body>") ∧
    badAuthMessage
        { status_code := 401, url := "https://api.bitfinex.com/v1/order/new",
          jsonResult := .ok (.dict [("error", .str "denied")]) } =
      Except.error (.keyError "message") ∧
    badAuthMessage
        { status_code := 401, url := "https://api.bitfinex.com/v1/order/new",
          jsonResult := .ok (.list [.str "denied"]) } =
      Except.error .typeError :=
  ⟨rfl, rfl, rfl, rfl, rfl⟩

/-- C6: Configuration is a shallow merge of the caller's options onto the
defaults: every successfully constructed client's options equal
`dictUpdate DEFAULT_CONFIG overrides`; constructing with no or empty
options yields exactly the defaults (timeout 5.0, host
api.bitfinex.com, protocol https, TLS verification on, empty auth, no
credentials); overriding only the host leaves the other options at their
defaults. -/
theorem config_merge :
    (∀ (o : PyDict) (c : Client), truthy (.dict o) = true →
      mkClient (some o) = .ok c → c.options = dictUpdate DEFAULT_CONFIG o) ∧
    mkClient none = .ok defaultClient ∧
    mkClient (some []) = .ok defaultClient ∧
    defaultClient.options = DEFAULT_CONFIG ∧
    dictGet defaultClient.options "timeout" = some (.float 5) ∧
    dictGet defaultClient.options "host" = some (.str "api.bitfinex.com") ∧
    dictGet defaultClient.options "protocol" = some (.str "https") ∧
    dictGet defaultClient.options "verify" = some (.bool true) ∧
    dictGet defaultClient.options "auth" = some (.dict []) ∧
    defaultClient.is_auth = false ∧
    defaultClient.secret_key = none ∧
    mkClient (some [("host", .str "x")]) = .ok hostXClient ∧
    dictGet hostXClient.options "host" = some (.str "x") ∧
    dictGet hostXClient.options "timeout" = some (.float 5) ∧
    dictGet hostXClient.options "protocol" = some (.str "https") ∧
    dictGet hostXClient.options "verify" = some (.bool true) := by
  refine ⟨?_, rfl, rfl, rfl, rfl, rfl, rfl, rfl, rfl, rfl, rfl, rfl, rfl, rfl, rfl, rfl⟩
  intro o c ht h
  unfold mkClient at h
  simp only [ht, if_true] at h
  split at h
  · exact absurd h (by simp)
  · split at h
    · exact absurd h (by simp)
    · split at h
      · exact absurd h (by simp)
      · split at h
        · exact absurd h (by simp)
        · split at h
          · exact absurd h (by simp)
          · rw [← (Except.ok.injEq _ _).mp h]

/-- C6 witness: the general shallow-merge conjunct applied to the
host-override options. -/
theorem config_merge_witness :
    hostXClient.options = dictUpdate DEFAULT_CONFIG [("host", .str "x")] :=
  config_merge.1 [("host", .str "x")] hostXClient rfl rfl

/-- C7: `to_dict` at concrete orders.  With no extra fields, the result
is exactly the six named keys in source order with `exchange` the
constant "bitfinex" — that half of the claim holds.  The other conjuncts
are the divergence: extra fields are NOT merged, because
`for k, v in self._additional_params` iterates the dict's KEYS and
tuple-unpacks each key string — an extra field with the nine-character
key `is_hidden` raises `ValueError`, and a two-character key `ab` inserts
the garbage pair `("a", "b")`, discarding the stored value `7`. -/
theorem to_dict_eval :
    to_dict (mkOrder (.str "btcusd") (.str "1.0") (.str "500.0") (.str "buy")
        (.str "limit") []) =
      Except.ok
        [("symbol", .str "btcusd"), ("amount", .str "1.0"),
         ("price", .str "500.0"), ("exchange", .str "bitfinex"),
         ("side", .str "buy"), ("type", .str "limit")] ∧
    to_dict (mkOrder (.str "btcusd") (.str "1.0") (.str "500.0") (.str "buy")
        (.str "limit") [("is_hidden", .bool true)]) =
      Except.error (PyErr.valueError "unpack") ∧
    to_dict (mkOrder (.str "btcusd") (.str "1.0") (.str "500.0") (.str "buy")
        (.str "limit") [("ab", .int 7)]) =
      Except.ok
        [("symbol", .str "btcusd"), ("amount", .str "1.0"),
         ("price", .str "500.0"), ("exchange", .str "bitfinex"),
         ("side", .str "buy"), ("type", .str "limit"), ("a", .str "b")] :=
  ⟨rfl, rfl, rfl⟩

/-- C8 counterexample: the claim asserts every nonce value is strictly
below 100000000, but Python's `random.randint(0, 100000000)` includes
the upper bound: 100000000 is a legitimate draw, its nonce renders as
"100000000", and it is not below 100000000. -/
theorem nonce_upper_bound_cex :
    (100000000 : Nat) ∈ randintOutcomes 0 100000000 ∧
    nonce 100000000 = "100000000" ∧
    ¬((100000000 : Nat) < 100000000) :=
  ⟨⟨Nat.zero_le _, Nat.le_refl _⟩, rfl, by omega⟩

/-- C8 amended: every generated nonce is the decimal-string rendering of
its pseudo-random draw, and every legitimate outcome of
`random.randint(0, 100000000)` lies in the CLOSED range
`[0, 100000000]`. -/
theorem nonce_range_closed (draw : Nat)
    (h : draw ∈ randintOutcomes 0 100000000) :
    ∃ n : Nat, nonce draw = toString n ∧ 0 ≤ n ∧ n ≤ 100000000 :=
  ⟨draw, rfl, Nat.zero_le _, h.2⟩

/-- C8 witness: the amended range statement at the concrete draw 42. -/
theorem nonce_range_closed_witness :
    ∃ n : Nat, nonce 42 = toString n ∧ 0 ≤ n ∧ n ≤ 100000000 :=
  nonce_range_closed 42 ⟨Nat.zero_le _, by omega⟩

/-- C9: Session retrieval is memoized.  When the memo is empty and the
first call succeeds, the created session's TLS-verification flag is the
configured `verify` option, it carries the `X-BFX-APIKEY` default header
exactly when the client is authenticated, the returned client only gains
the cached session, and calling again returns the very same session and
client — so every subsequent call for the lifetime of the client returns
that session unchanged. -/
theorem get_session_memoized (c : Client) (s : Session) (c1 : Client)
    (hfresh : c.session = none) (h : get_session c = .ok (s, c1)) :
    dictGet c.options "verify" = some s.verify ∧
    ((dictGet s.headers "X-BFX-APIKEY").isSome ↔ c.is_auth = true) ∧
    c1 = { c with session := some s } ∧
    get_session c1 = .ok (s, c1) := by
  cases hv : getItem c.options "verify" with
  | error e => simp [get_session, hfresh, hv] at h
  | ok v =>
    have hdv : dictGet c.options "verify" = some v := by
      unfold getItem at hv
      cases hd : dictGet c.options "verify" <;> rw [hd] at hv <;> simp_all
    cases ha : c.is_auth with
    | true =>
      cases hk : clientKey c with
      | error e => simp [get_session, hfresh, hv, ha, hk] at h
      | ok r =>
        obtain ⟨kv, rfl⟩ := clientKey_auth_isSome c ha r hk
        simp only [get_session, hfresh, hv, ha, hk, if_true] at h
        obtain ⟨hs, hc1⟩ := Prod.mk.injEq .. ▸ (Except.ok.injEq _ _ ▸ h)
        subst hs hc1
        refine ⟨hdv, ?_, rfl, rfl⟩
        simp [dictSet, dictGet, ha]
    | false =>
      simp only [get_session, hfresh, hv, ha, Bool.false_eq_true, if_false] at h
      obtain ⟨hs, hc1⟩ := Prod.mk.injEq .. ▸ (Except.ok.injEq _ _ ▸ h)
      subst hs hc1
      refine ⟨hdv, ?_, rfl, rfl⟩
      simp [dictGet, ha]

/-- C10: The payload that gets signed by `_make_post_request` is a deep
copy of the caller's dict augmented so that `request` equals the endpoint
path and `nonce` equals the freshly generated nonce — overwriting any
same-named keys already present — while every other key keeps the
caller's value, and the caller's original dict (heap cell `pref`) is left
unchanged by the call whether it succeeds or raises. -/
theorem post_payload_copy_frame (c : Client) (draw : Nat)
    (net : Session → String → SignedHeaders → Response)
    (store : Store) (pref : Nat) (path : String) (k : String)
    (hp : pref < store.length) (hk1 : k ≠ "request") (hk2 : k ≠ "nonce") :
    (make_post_request c draw net store pref path).finalPayload =
      dictSet (dictSet (store.getD pref []) "request" (.str path)) "nonce"
        (.str (nonce draw)) ∧
    dictGet (make_post_request c draw net store pref path).finalPayload
        "request" = some (.str path) ∧
    dictGet (make_post_request c draw net store pref path).finalPayload
        "nonce" = some (.str (nonce draw)) ∧
    dictGet (make_post_request c draw net store pref path).finalPayload k =
      dictGet (store.getD pref []) k ∧
    (make_post_request c draw net store pref path).store[pref]? =
      store[pref]? := by
  have hq : store.length ≠ pref := Ne.symm (Nat.ne_of_lt hp)
  have hfp : (make_post_request c draw net store pref path).finalPayload =
      dictSet (dictSet (store.getD pref []) "request" (.str path)) "nonce"
        (.str (nonce draw)) := by
    simp only [make_post_request]
    split
    · rfl
    · split
      · rfl
      · split <;> rfl
  have hstore : (make_post_request c draw net store pref path).store =
      ((store ++ [store.getD pref []]).set store.length
        (dictSet (store.getD pref []) "request" (.str path))).set store.length
        (dictSet (dictSet (store.getD pref []) "request" (.str path)) "nonce"
          (.str (nonce draw))) := by
    simp only [make_post_request]
    split
    · rfl
    · split
      · rfl
      · split <;> rfl
  refine ⟨hfp, ?_, ?_, ?_, ?_⟩
  · rw [hfp, dictGet_dictSet_ne _ _ _ _ (by decide : ("nonce" : String) ≠ "request"),
      dictGet_dictSet_self]
  · rw [hfp, dictGet_dictSet_self]
  · rw [hfp, dictGet_dictSet_ne _ _ _ _ (Ne.symm hk2),
      dictGet_dictSet_ne _ _ _ _ (Ne.symm hk1)]
  · rw [hstore, List.getElem?_set_ne hq, List.getElem?_set_ne hq,
      List.getElem?_append_left hp]

/-- C9 witness: the memoization contract at the concrete default
client. -/
theorem get_session_memoized_witness :
    dictGet defaultClient.options "verify" = some sessionD.verify ∧
    ((dictGet sessionD.headers "X-BFX-APIKEY").isSome ↔
      defaultClient.is_auth = true) ∧
    clientD = { defaultClient with session := some sessionD } ∧
    get_session clientD = .ok (sessionD, clientD) :=
  get_session_memoized defaultClient sessionD clientD rfl rfl

/-- C10 witness: the copy-and-augment frame property at a concrete
client, heap and key. -/
theorem post_payload_copy_frame_witness :
    (make_post_request defaultClient 7 netStub storeW 0
        "/v1/order/status").finalPayload =
      dictSet (dictSet (storeW.getD 0 []) "request" (.str "/v1/order/status"))
        "nonce" (.str (nonce 7)) ∧
    dictGet (make_post_request defaultClient 7 netStub storeW 0
        "/v1/order/status").finalPayload "request" =
      some (.str "/v1/order/status") ∧
    dictGet (make_post_request defaultClient 7 netStub storeW 0
        "/v1/order/status").finalPayload "nonce" = some (.str (nonce 7)) ∧
    dictGet (make_post_request defaultClient 7 netStub storeW 0
        "/v1/order/status").finalPayload "id" = dictGet (storeW.getD 0 []) "id" ∧
    (make_post_request defaultClient 7 netStub storeW 0
        "/v1/order/status").store[0]? = storeW[0]? :=
  post_payload_copy_frame defaultClient 7 netStub storeW 0 "/v1/order/status"
    "id" (by decide) (by decide) (by decide)
